import Mathlib

/-!
Shallow embedding of the harbormaster reconciliation engine (Go sources
harbormaster.go and libraries/do.go).  The provider HTTP layer is modelled
as an oracle: a function from the request history and the current request
to a structured response.  Every embedded operation threads the list of
requests issued so far, so theorems can speak about which requests a run
issues and in which order.  Paginated and polling loops that are unbounded
in Go (for true, for pages > 0, for locked) take a fuel parameter and
return none when the fuel is exhausted, mirroring divergence.
-/

/-- Snapshot of a droplet as unmarshalled from the provider
(do_droplet_t: ID, Name, Memory, Status, Locked, Networks). -/
structure Droplet where
  id : Int
  name : String
  memory : Int
  status : String
  locked : Bool
  networks : List String
deriving DecidableEq, Repr

/-- The zero value of do_droplet_t, produced by unmarshalling into a fresh
struct when the response carries no droplet. -/
def zeroDroplet : Droplet :=
  { id := 0, name := "", memory := 0, status := "", locked := false, networks := [] }

/-- A domain record (do_domain_record_t: ID, Type, Name, Data).  The Go
field Type is called ty here. -/
structure DomainRecord where
  id : Int
  ty : String
  name : String
  data : String
deriving DecidableEq, Repr

/-- Structured request body, standing for the JSON that the Go code
marshals (do_t for droplet actions, the droplet-create struct, and
do_domain_record_t for record creation). -/
inductive Body where
  | doAction (ty : String) (id : Int) (size : String)
  | createDroplet (name region size image : String) (keys : List String)
  | domainRecord (ty name data : String)
deriving DecidableEq, Repr

/-- One HTTP request issued by the client: GET (request with empty body),
POST (request with a body) or DELETE (deleteRequest). -/
inductive Req where
  | get (url : String)
  | post (url : String) (body : Body)
  | delete (url : String)
deriving DecidableEq, Repr

/-- Structured response from the provider, standing for the decoded JSON
body (or the status code of a DELETE, or a transport failure). -/
inductive Resp where
  | droplets (l : List Droplet)
  | droplet (d : Droplet)
  | records (l : List DomainRecord) (next : String)
  | floating (id : Int)
  | ok
  | code (c : Int)
  | err
deriving DecidableEq, Repr

/-- A provider oracle: given the history of requests issued so far and the
current request, produce the response.  This is the mocked provider against
which the client code is run. -/
def Provider : Type := List Req → Req → Resp

/-- A request is mutating when it is a POST or a DELETE; GETs are
read-only. -/
def isMutating : Req → Bool
  | Req.get _ => false
  | Req.post _ _ => true
  | Req.delete _ => true

def Resp.isErr : Resp → Bool
  | Resp.err => true
  | _ => false

/-- do.request: issue a GET or POST against the oracle and record it in the
trace.  The Bool in Resp.isErr plays the role of the returned error. -/
def request (p : Provider) (tr : List Req) (rq : Req) : Resp × List Req :=
  (p tr rq, tr ++ [rq])

/-- do.deleteRequest: issue a DELETE; any outcome other than status code
204 is an error. -/
def deleteRequest (p : Provider) (tr : List Req) (url : String) : Bool × List Req :=
  (match p tr (Req.delete url) with
    | Resp.code 204 => false
    | _ => true,
   tr ++ [Req.delete url])

/-- Unmarshalling a droplets page: a well-shaped response gives the list,
anything else behaves like a failed unmarshal into a zero struct. -/
def decodeDroplets : Resp → List Droplet × Bool
  | Resp.droplets l => (l, false)
  | _ => ([], true)

/-- Unmarshalling a single droplet (getDropletFromID ignores all errors,
so a malformed response produces the zero droplet). -/
def decodeDroplet : Resp → Droplet
  | Resp.droplet d => d
  | _ => zeroDroplet

/-- Unmarshalling a domain-records page: list, next-page link, and whether
the unmarshal failed. -/
def decodeRecords : Resp → List DomainRecord × String × Bool
  | Resp.records l next => (l, next, false)
  | _ => ([], "", true)

def perPage : Nat := 10

def dropletsPageUrl (page : Nat) : String :=
  "droplets?page=" ++ toString page ++ "&per_page=" ++ toString perPage

def pageGet (page : Nat) : Req := Req.get (dropletsPageUrl page)

def dropletUrl (id : Int) : String := "droplets/" ++ toString id

def pollGet (id : Int) : Req := Req.get (dropletUrl id)

def actionsUrl (id : Int) : String := "droplets/" ++ toString id ++ "/actions"

/-- A droplet action POST (do_t marshalled: shutdown, power_off, power_on,
resize with a size slug). -/
def actionReq (id : Int) (ty : String) (size : String) : Req :=
  Req.post (actionsUrl id) (Body.doAction ty 0 size)

def recordsUrl (domain : String) : String := "domains/" ++ domain ++ "/records"

def recGet (domain : String) (page : Nat) : Req :=
  Req.get (recordsUrl domain ++ "?page=" ++ toString page)

/-- The size slug sent to the provider for a whole-gigabyte capacity
(fmt.Sprintf %dgb). -/
def sizeSlug (size : Int) : String := toString size ++ "gb"

/-- strings.ToLower, modelled as ASCII lowering over the character
list. -/
def toLowerStr (s : String) : String := String.mk (s.data.map Char.toLower)

/-- do.getDropletFromID: GET droplets/id, ignoring every error. -/
def getDropletFromID (p : Provider) (id : Int) (tr : List Req) : Droplet × List Req :=
  (decodeDroplet (request p tr (pollGet id)).1, (request p tr (pollGet id)).2)

/-- do.waitForNodeStatus: fetch the droplet, succeed when its status
matches, otherwise retry after decrementing the budget; with a budget of
maxTries it performs at most maxTries + 1 fetches.  The Go int budget is a
Nat here; every call site passes a non-negative literal. -/
def waitForNodeStatus (p : Provider) (id : Int) (status : String) (n : Nat) (tr : List Req) :
    Bool × List Req :=
  if (getDropletFromID p id tr).1.status = status then (true, (getDropletFromID p id tr).2)
  else
    match n with
    | 0 => (false, (getDropletFromID p id tr).2)
    | Nat.succ m => waitForNodeStatus p id status m (getDropletFromID p id tr).2

/-- Page loop of do.getDropletFromName: scan droplets pages for a
case-insensitively matching name; a page shorter than perPage is the last
one.  The Go loop is for true; fuel bounds it here. -/
def getDropletFromNameLoop (p : Provider) (name : String) (page fuel : Nat) (tr : List Req) :
    Option ((Option Droplet × Bool) × List Req) :=
  match fuel with
  | 0 => none
  | Nat.succ f =>
    if (request p tr (pageGet page)).1.isErr then
      some ((none, true), (request p tr (pageGet page)).2)
    else
      match List.find? (fun x => (toLowerStr x.name) == name) (decodeDroplets (request p tr (pageGet page)).1).1 with
      | some x => some ((some x, false), (request p tr (pageGet page)).2)
      | none =>
        if (decodeDroplets (request p tr (pageGet page)).1).1.length < perPage then
          some ((none, (decodeDroplets (request p tr (pageGet page)).1).2), (request p tr (pageGet page)).2)
        else
          getDropletFromNameLoop p name (page + 1) f (request p tr (pageGet page)).2

/-- do.getDropletFromName: lower-case the requested name and walk the
pages starting at page 1. -/
def getDropletFromName (p : Provider) (name : String) (fuel : Nat) (tr : List Req) :
    Option ((Option Droplet × Bool) × List Req) :=
  getDropletFromNameLoop p (toLowerStr name) 1 fuel tr

/-- Page loop of do.getDomainRecord: scan record pages for a matching
subdomain; keep going while a next link is present.  The Go loop is
while pages > 0; fuel bounds it here. -/
def getDomainRecordLoop (p : Provider) (domain sub : String) (page fuel : Nat) (tr : List Req) :
    Option ((Option DomainRecord × Bool) × List Req) :=
  match fuel with
  | 0 => none
  | Nat.succ f =>
    if (request p tr (recGet domain page)).1.isErr then
      some ((none, true), (request p tr (recGet domain page)).2)
    else
      if (decodeRecords (request p tr (recGet domain page)).1).2.2 then
        some ((none, true), (request p tr (recGet domain page)).2)
      else
        match List.find? (fun r => (toLowerStr r.name) == sub) (decodeRecords (request p tr (recGet domain page)).1).1 with
        | some r => some ((some r, false), (request p tr (recGet domain page)).2)
        | none =>
          if 0 < (decodeRecords (request p tr (recGet domain page)).1).2.1.length then
            getDomainRecordLoop p domain sub (page + 1) f (request p tr (recGet domain page)).2
          else
            some ((none, false), (request p tr (recGet domain page)).2)

/-- do.createDomainRecord: POST the new record. -/
def createDomainRecord (p : Provider) (domain ty sub ip : String) (tr : List Req) :
    Bool × List Req :=
  ((request p tr (Req.post (recordsUrl domain) (Body.domainRecord ty sub ip))).1.isErr,
   (request p tr (Req.post (recordsUrl domain) (Body.domainRecord ty sub ip))).2)

/-- Error outcomes of AssignDomainRecord: a propagated request or
unmarshal failure, or the literal not-in-place error returned when an
existing record has a different type. -/
inductive DoErr where
  | transport
  | notImplemented
deriving DecidableEq, Repr

/-- do.AssignDomainRecord: locate the record; create when absent; succeed
without touching the provider when present with a matching type; return
the not-implemented error when present with another type.  The record
value (Data) is never inspected. -/
def AssignDomainRecord (p : Provider) (domain ty sub ip : String) (fuel : Nat) (tr : List Req) :
    Option (Option DoErr × List Req) :=
  match getDomainRecordLoop p (toLowerStr domain) (toLowerStr sub) 1 fuel tr with
  | none => none
  | some ((odr, gerr), tr1) =>
    if gerr then some (some DoErr.transport, tr1)
    else
      match odr with
      | none =>
        some (if (createDomainRecord p (toLowerStr domain) ty (toLowerStr sub) ip tr1).1 then some DoErr.transport else none,
              (createDomainRecord p (toLowerStr domain) ty (toLowerStr sub) ip tr1).2)
      | some dr =>
        if ty = dr.ty then some (none, tr1)
        else some (some DoErr.notImplemented, tr1)

/-- do.DeleteDomainRecord: locate the record; absence is success; when
present DELETE it by id. -/
def DeleteDomainRecord (p : Provider) (domain sub : String) (fuel : Nat) (tr : List Req) :
    Option (Bool × List Req) :=
  match getDomainRecordLoop p (toLowerStr domain) (toLowerStr sub) 1 fuel tr with
  | none => none
  | some ((odr, gerr), tr1) =>
    if gerr then some (true, tr1)
    else
      match odr with
      | none => some (false, tr1)
      | some dr =>
        some (deleteRequest p tr1 ("domains/" ++ (toLowerStr domain) ++ "/records/" ++ toString dr.id))

/-- The output file snapshot (FileOutput_t). -/
structure FileOutput where
  droplet : Droplet
deriving DecidableEq, Repr

/-- The droplet-create POST body built by CreateNode (name, region, size,
image, optional ssh key). -/
def createReq (name region size image sshKey : String) : Req :=
  Req.post "droplets" (Body.createDroplet name region size image
    (if 0 < sshKey.length then [sshKey] else []))

/-- do.CreateNode (libraries/do.go): locate by name; create when absent
and re-fetch after the propagation delay; fill fileOutput only when a
droplet was obtained without error. -/
def CreateNode (p : Provider) (name region size image sshKey : String) (fuel1 fuel2 : Nat)
    (fileOutput : FileOutput) (tr : List Req) : Option ((Bool × FileOutput) × List Req) :=
  match getDropletFromName p name fuel1 tr with
  | none => none
  | some ((od, gerr), tr1) =>
    if gerr then some ((true, fileOutput), tr1)
    else
      match od with
      | some d => some ((false, { droplet := d }), tr1)
      | none =>
        if (request p tr1 (createReq name region size image sshKey)).1.isErr then
          some ((true, fileOutput), (request p tr1 (createReq name region size image sshKey)).2)
        else
          match getDropletFromName p name fuel2 (request p tr1 (createReq name region size image sshKey)).2 with
          | none => none
          | some ((od2, gerr2), tr3) =>
            if gerr2 then some ((true, fileOutput), tr3)
            else
              match od2 with
              | some d2 => some ((false, { droplet := d2 }), tr3)
              | none => some ((false, fileOutput), tr3)

/-- do.DeleteNode: locate by name; absence is success; when present
DELETE droplets/id. -/
def DeleteNode (p : Provider) (name : String) (fuel : Nat) (tr : List Req) :
    Option (Bool × List Req) :=
  match getDropletFromName p name fuel tr with
  | none => none
  | some ((od, gerr), tr1) =>
    if gerr then some (true, tr1)
    else
      match od with
      | none => some (false, tr1)
      | some d => some (deleteRequest p tr1 (dropletUrl d.id))

/-- do.shutdownNode: POST the graceful shutdown action, wait up to budget
10 for status off, and when the budget is exhausted POST one forced
power_off action without re-polling. -/
def shutdownNode (p : Provider) (d : Droplet) (tr : List Req) : Bool × List Req :=
  if (request p tr (actionReq d.id "shutdown" "")).1.isErr then
    (true, (request p tr (actionReq d.id "shutdown" "")).2)
  else
    if (waitForNodeStatus p d.id "off" 10 (request p tr (actionReq d.id "shutdown" "")).2).1 then
      (false, (waitForNodeStatus p d.id "off" 10 (request p tr (actionReq d.id "shutdown" "")).2).2)
    else
      ((request p (waitForNodeStatus p d.id "off" 10 (request p tr (actionReq d.id "shutdown" "")).2).2
          (actionReq d.id "power_off" "")).1.isErr,
       (request p (waitForNodeStatus p d.id "off" 10 (request p tr (actionReq d.id "shutdown" "")).2).2
          (actionReq d.id "power_off" "")).2)

/-- do.startNode: POST the power_on action (its error is ignored by the
caller). -/
def startNode (p : Provider) (d : Droplet) (tr : List Req) : Bool × List Req :=
  ((request p tr (actionReq d.id "power_on" "")).1.isErr,
   (request p tr (actionReq d.id "power_on" "")).2)

/-- The for locked loop inside ResizeNode: poll the droplet until the
locked flag clears, then start the node.  Unbounded in Go; fuel bounds it
here. -/
def resizeLockLoop (p : Provider) (d : Droplet) (fuel : Nat) (tr : List Req) :
    Option (List Req) :=
  match fuel with
  | 0 => none
  | Nat.succ f =>
    if (getDropletFromID p d.id tr).1.locked then
      resizeLockLoop p d f (getDropletFromID p d.id tr).2
    else
      some (startNode p d (getDropletFromID p d.id tr).2).2

/-- do.ResizeNode: locate by name; skip when the capacity (Memory / 1024,
Go integer division) already equals the target; otherwise shut down,
POST the resize action, wait for the locked flag to clear, start the node
and wait (with the result discarded) for status active. -/
def ResizeNode (p : Provider) (name : String) (size : Int) (locFuel lockFuel : Nat)
    (tr : List Req) : Option (Bool × List Req) :=
  match getDropletFromName p name locFuel tr with
  | none => none
  | some ((od, gerr), tr1) =>
    if gerr then some (true, tr1)
    else
      match od with
      | none => some (false, tr1)
      | some d =>
        if Int.tdiv d.memory 1024 = size then some (false, tr1)
        else
          if (shutdownNode p d tr1).1 then some (true, (shutdownNode p d tr1).2)
          else
            if (request p (shutdownNode p d tr1).2 (actionReq d.id "resize" (sizeSlug size))).1.isErr then
              some (true, (request p (shutdownNode p d tr1).2 (actionReq d.id "resize" (sizeSlug size))).2)
            else
              match resizeLockLoop p d lockFuel
                  (request p (shutdownNode p d tr1).2 (actionReq d.id "resize" (sizeSlug size))).2 with
              | none => none
              | some tr4 => some (false, (waitForNodeStatus p d.id "active" 10 tr4).2)

def postActionTy : Req → Option String
  | Req.post _ (Body.doAction ty _ _) => some ty
  | _ => none

def Req.isGet : Req → Bool
  | Req.get _ => true
  | _ => false

/-- The type of the most recent action POST in the history. -/
def lastPostAction (hist : List Req) : Option String :=
  hist.reverse.findSome? postActionTy

/-- How many requests at the end of the history are GETs (the polls since
the last POST). -/
def trailingGets (hist : List Req) : Nat :=
  (hist.reverse.takeWhile Req.isGet).length

/-- The mocked provider for a resize run on droplet d, with one poll
stream per phase. -/
def resizeOracle (d : Droplet) (offPoll lockPoll activePoll : Nat → Droplet) : Provider :=
  fun hist req =>
    match req with
    | Req.post _ _ => Resp.ok
    | Req.delete _ => Resp.code 204
    | Req.get _ =>
      if hist.length = 0 then Resp.droplets [d]
      else
        match lastPostAction hist with
        | some ty =>
          if ty = "shutdown" then Resp.droplet (offPoll (trailingGets hist))
          else if ty = "resize" then Resp.droplet (lockPoll (trailingGets hist))
          else if ty = "power_on" then Resp.droplet (activePoll (trailingGets hist))
          else Resp.droplet d
        | none => Resp.droplet d

/-- The request trace of a successful resize run in which the graceful
shutdown was confirmed: locate GET, shutdown POST, m1 off-polls, resize
POST, m2 lock-polls, power_on POST, m3 active-polls. -/
def happyTrace (id size : Int) (m1 m2 m3 : Nat) : List Req :=
  [pageGet 1, actionReq id "shutdown" ""] ++ List.replicate m1 (pollGet id)
    ++ [actionReq id "resize" (sizeSlug size)] ++ List.replicate m2 (pollGet id)
    ++ [actionReq id "power_on" ""] ++ List.replicate m3 (pollGet id)

/-- The request trace of a resize run whose shutdown wait timed out:
locate GET, shutdown POST, 11 off-polls, one forced power_off POST
immediately followed by the resize POST, m2 lock-polls, power_on POST, m3
active-polls. -/
def timeoutTrace (id size : Int) (m2 m3 : Nat) : List Req :=
  [pageGet 1, actionReq id "shutdown" ""] ++ List.replicate 11 (pollGet id)
    ++ [actionReq id "power_off" "", actionReq id "resize" (sizeSlug size)]
    ++ List.replicate m2 (pollGet id) ++ [actionReq id "power_on" ""]
    ++ List.replicate m3 (pollGet id)

/-- A provider whose every response is the droplet f n, where n is how
many requests were issued before; used to drive waitForNodeStatus. -/
def pollProvider (f : Nat → Droplet) : Provider :=
  fun hist _ => Resp.droplet (f hist.length)

def cDropC1 : Droplet :=
  { id := 7, name := "node-a", memory := 1024, status := "active", locked := false,
    networks := ["10.0.0.1"] }

def cOffD : Droplet := { cDropC1 with status := "off" }

def cUnlockedD : Droplet := { cDropC1 with status := "off", locked := false }

def cActiveD : Droplet := { cDropC1 with status := "active" }

def cNewD : Droplet := { cDropC1 with status := "new" }

def cDrop2gb : Droplet :=
  { id := 9, name := "node-b", memory := 2048, status := "active", locked := false,
    networks := [] }

/-- A provider that always answers with the one-droplet page containing
cDrop2gb. -/
def c4Oracle : Provider := fun _ _ => Resp.droplets [cDrop2gb]

/-- A provider with no droplets at all. -/
def noDropletsOracle : Provider := fun _ _ => Resp.droplets []

/-- A provider with no domain records at all. -/
def noRecordsOracle : Provider := fun _ _ => Resp.records [] ""

def cRec : DomainRecord := { id := 5, ty := "A", name := "www", data := "1.2.3.4" }

/-- A provider whose record listing always returns the single record cRec
with no next page. -/
def cRecOracle : Provider := fun _ _ => Resp.records [cRec] ""

/-- A provider for the CreateNode scenario: the locate pages are empty
both before and after the create POST, and the POST itself succeeds. -/
def c9Oracle : Provider :=
  fun hist _ => if hist.length = 1 then Resp.ok else Resp.droplets []

def cFiller : Droplet := { zeroDroplet with name := "other" }

def cDup1 : Droplet := { zeroDroplet with id := 21, name := "dup" }

def cDup2 : Droplet := { zeroDroplet with id := 22, name := "dup" }

/-- Two droplet pages: a full page of non-matching droplets, then a page
holding two droplets with the same name. -/
def c8DropOracle : Provider := fun hist _ =>
  if hist.length = 0 then Resp.droplets (List.replicate 10 cFiller)
  else Resp.droplets [cDup1, cDup2]

def cRecFiller : DomainRecord := { id := 1, ty := "A", name := "other", data := "" }

def cRecDup1 : DomainRecord := { id := 2, ty := "A", name := "dup", data := "1.1.1.1" }

def cRecDup2 : DomainRecord := { id := 3, ty := "A", name := "dup", data := "2.2.2.2" }

/-- Two record pages: a non-matching page carrying a next link, then a
page holding two records with the same subdomain. -/
def c8RecOracle : Provider := fun hist _ =>
  if hist.length = 0 then Resp.records [cRecFiller] "next-url"
  else Resp.records [cRecDup1, cRecDup2] ""

@[simp] lemma isMutating_get (u : String) : isMutating (Req.get u) = false := rfl

@[simp] lemma isMutating_post (u : String) (b : Body) : isMutating (Req.post u b) = true := rfl

@[simp] lemma isMutating_delete (u : String) : isMutating (Req.delete u) = true := rfl

@[simp] lemma isErr_droplets (l : List Droplet) : (Resp.droplets l).isErr = false := rfl

@[simp] lemma isErr_droplet (d : Droplet) : (Resp.droplet d).isErr = false := rfl

@[simp] lemma isErr_records (l : List DomainRecord) (n : String) : (Resp.records l n).isErr = false := rfl

@[simp] lemma isErr_ok : Resp.ok.isErr = false := rfl

@[simp] lemma isErr_code (c : Int) : (Resp.code c).isErr = false := rfl

@[simp] lemma isErr_err : Resp.err.isErr = true := rfl

lemma replicate_snoc {α : Type} (a : α) (k : Nat) :
    List.replicate k a ++ [a] = List.replicate (k + 1) a := by
  induction k with
  | zero => rfl
  | succ m ih => rw [List.replicate_succ, List.cons_append, ih]; rfl

lemma filter_isMutating_replicate_get (k : Nat) (u : String) :
    (List.replicate k (Req.get u)).filter isMutating = [] := by
  induction k with
  | zero => rfl
  | succ m ih => rw [List.replicate_succ, List.filter_cons]; simp [ih]

lemma waitForNodeStatus_zero (p : Provider) (id : Int) (status : String) (tr : List Req) :
    waitForNodeStatus p id status 0 tr =
      if (getDropletFromID p id tr).1.status = status then (true, (getDropletFromID p id tr).2)
      else (false, (getDropletFromID p id tr).2) := rfl

lemma waitForNodeStatus_succ (p : Provider) (id : Int) (status : String) (m : Nat) (tr : List Req) :
    waitForNodeStatus p id status (Nat.succ m) tr =
      if (getDropletFromID p id tr).1.status = status then (true, (getDropletFromID p id tr).2)
      else waitForNodeStatus p id status m (getDropletFromID p id tr).2 := rfl

lemma resizeLockLoop_succ (p : Provider) (d : Droplet) (f : Nat) (tr : List Req) :
    resizeLockLoop p d (Nat.succ f) tr =
      if (getDropletFromID p d.id tr).1.locked then
        resizeLockLoop p d f (getDropletFromID p d.id tr).2
      else some (startNode p d (getDropletFromID p d.id tr).2).2 := rfl

lemma getDropletFromID_at_fst (p : Provider) (id : Int) (g : Nat → Droplet) (tr0 : List Req)
    (hresp : ∀ k, p (tr0 ++ List.replicate k (pollGet id)) (pollGet id) = Resp.droplet (g k))
    (k : Nat) :
    (getDropletFromID p id (tr0 ++ List.replicate k (pollGet id))).1 = g k := by
  simp [getDropletFromID, request, hresp k, decodeDroplet]

lemma getDropletFromID_at_snd (p : Provider) (id : Int) (tr0 : List Req) (k : Nat) :
    (getDropletFromID p id (tr0 ++ List.replicate k (pollGet id))).2 =
      tr0 ++ List.replicate (k + 1) (pollGet id) := by
  simp [getDropletFromID, request, List.append_assoc, replicate_snoc]

/-- Whatever the provider answers, a status wait only ever appends
droplet-by-id GETs to the trace, at least one of them. -/
lemma waitForNodeStatus_only_polls (p : Provider) (id : Int) (status : String) :
    ∀ (n : Nat) (tr : List Req), ∃ j, 1 ≤ j ∧
      (waitForNodeStatus p id status n tr).2 = tr ++ List.replicate j (pollGet id) := by
  intro n
  induction n with
  | zero =>
    intro tr
    refine ⟨1, le_rfl, ?_⟩
    rw [waitForNodeStatus_zero]
    split <;> simp [getDropletFromID, request]
  | succ m ih =>
    intro tr
    by_cases h : (getDropletFromID p id tr).1.status = status
    · refine ⟨1, le_rfl, ?_⟩
      rw [waitForNodeStatus_succ, if_pos h]
      simp [getDropletFromID, request]
    · obtain ⟨j, hj1, hj⟩ := ih (getDropletFromID p id tr).2
      refine ⟨j + 1, by omega, ?_⟩
      rw [waitForNodeStatus_succ, if_neg h, hj]
      simp [getDropletFromID, request, List.append_assoc, List.replicate_succ]

/-- When every status seen inside the budget differs from the target, the
wait fails after exactly budget + 1 polls. -/
lemma waitForNodeStatus_timeout (p : Provider) (id : Int) (status : String) (g : Nat → Droplet)
    (tr0 : List Req)
    (hresp : ∀ k, p (tr0 ++ List.replicate k (pollGet id)) (pollGet id) = Resp.droplet (g k)) :
    ∀ (n k : Nat), (∀ i, k ≤ i → i ≤ k + n → (g i).status ≠ status) →
      waitForNodeStatus p id status n (tr0 ++ List.replicate k (pollGet id)) =
        (false, tr0 ++ List.replicate (k + n + 1) (pollGet id)) := by
  intro n
  induction n with
  | zero =>
    intro k h
    rw [waitForNodeStatus_zero, getDropletFromID_at_fst p id g tr0 hresp k,
      if_neg (h k le_rfl (by omega)), getDropletFromID_at_snd p id tr0 k]
  | succ m ih =>
    intro k h
    rw [waitForNodeStatus_succ, getDropletFromID_at_fst p id g tr0 hresp k,
      if_neg (h k le_rfl (by omega)), getDropletFromID_at_snd p id tr0 k,
      ih (k + 1) (fun i h1 h2 => h i (by omega) (by omega))]
    have : k + 1 + m + 1 = k + (m + 1) + 1 := by omega
    rw [this]

/-- When some status inside the budget matches the target, the wait
succeeds after the polls up to the matching one. -/
lemma waitForNodeStatus_hit (p : Provider) (id : Int) (status : String) (g : Nat → Droplet)
    (tr0 : List Req)
    (hresp : ∀ k, p (tr0 ++ List.replicate k (pollGet id)) (pollGet id) = Resp.droplet (g k)) :
    ∀ (n k : Nat), (∃ i, k ≤ i ∧ i ≤ k + n ∧ (g i).status = status) →
      ∃ m, k ≤ m ∧ m ≤ k + n ∧
        waitForNodeStatus p id status n (tr0 ++ List.replicate k (pollGet id)) =
          (true, tr0 ++ List.replicate (m + 1) (pollGet id)) := by
  intro n
  induction n with
  | zero =>
    rintro k ⟨i, hki, hik, hstat⟩
    have hik0 : i = k := by omega
    subst hik0
    refine ⟨i, le_rfl, by omega, ?_⟩
    rw [waitForNodeStatus_zero, getDropletFromID_at_fst p id g tr0 hresp i,
      if_pos hstat, getDropletFromID_at_snd p id tr0 i]
  | succ m ih =>
    rintro k ⟨i, hki, hik, hstat⟩
    by_cases hk : (g k).status = status
    · refine ⟨k, le_rfl, by omega, ?_⟩
      rw [waitForNodeStatus_succ, getDropletFromID_at_fst p id g tr0 hresp k,
        if_pos hk, getDropletFromID_at_snd p id tr0 k]
    · have hne : i ≠ k := by intro e; rw [e] at hstat; exact hk hstat
      obtain ⟨m1, hm1, hm2, hm3⟩ := ih (k + 1) ⟨i, by omega, by omega, hstat⟩
      refine ⟨m1, by omega, by omega, ?_⟩
      rw [waitForNodeStatus_succ, getDropletFromID_at_fst p id g tr0 hresp k,
        if_neg hk, getDropletFromID_at_snd p id tr0 k, hm3]

/-- When the locked flag clears at some poll inside the fuel, the lock
loop terminates by starting the node right after that poll. -/
lemma resizeLockLoop_clears (p : Provider) (d : Droplet) (g : Nat → Droplet) (tr0 : List Req)
    (hresp : ∀ k, p (tr0 ++ List.replicate k (pollGet d.id)) (pollGet d.id) = Resp.droplet (g k)) :
    ∀ (fuel k : Nat), (∃ j, k ≤ j ∧ j < k + fuel ∧ (g j).locked = false) →
      ∃ m, k ≤ m ∧ m < k + fuel ∧
        resizeLockLoop p d fuel (tr0 ++ List.replicate k (pollGet d.id)) =
          some ((tr0 ++ List.replicate (m + 1) (pollGet d.id)) ++ [actionReq d.id "power_on" ""]) := by
  intro fuel
  induction fuel with
  | zero => rintro k ⟨j, h1, h2, _⟩; omega
  | succ f ih =>
    rintro k ⟨j, h1, h2, h3⟩
    by_cases hk : (g k).locked = true
    · have hne : j ≠ k := by intro e; rw [e] at h3; rw [h3] at hk; exact Bool.noConfusion hk
      obtain ⟨m, hm1, hm2, hm3⟩ := ih (k + 1) ⟨j, by omega, by omega, h3⟩
      refine ⟨m, by omega, by omega, ?_⟩
      rw [resizeLockLoop_succ, getDropletFromID_at_fst p d.id g tr0 hresp k,
        if_pos hk, getDropletFromID_at_snd p d.id tr0 k, hm3]
    · refine ⟨k, le_rfl, by omega, ?_⟩
      rw [resizeLockLoop_succ, getDropletFromID_at_fst p d.id g tr0 hresp k,
        if_neg hk, getDropletFromID_at_snd p d.id tr0 k]
      simp [startNode, request]

/-- The droplet locator page loop issues only GET requests: the mutating
part of the trace is unchanged by a completed scan. -/
lemma getDropletFromNameLoop_filter (p : Provider) (name : String) :
    ∀ (fuel page : Nat) (tr : List Req) (res : Option Droplet × Bool) (tr1 : List Req),
      getDropletFromNameLoop p name page fuel tr = some (res, tr1) →
      tr1.filter isMutating = tr.filter isMutating := by
  intro fuel
  induction fuel with
  | zero => intro page tr res tr1 h; exact Option.noConfusion h
  | succ f ih =>
    intro page tr res tr1 h
    unfold getDropletFromNameLoop at h
    split at h
    · cases h; simp [request, List.filter_append, pageGet, recGet]
    · split at h
      · cases h; simp [request, List.filter_append, pageGet, recGet]
      · split at h
        · cases h; simp [request, List.filter_append, pageGet, recGet]
        · have := ih (page + 1) (request p tr (pageGet page)).2 res tr1 h
          rw [this]; simp [request, List.filter_append, pageGet, recGet]

lemma getDropletFromName_filter (p : Provider) (name : String) (fuel : Nat) (tr : List Req)
    (res : Option Droplet × Bool) (tr1 : List Req)
    (h : getDropletFromName p name fuel tr = some (res, tr1)) :
    tr1.filter isMutating = tr.filter isMutating :=
  getDropletFromNameLoop_filter p (toLowerStr name) fuel 1 tr res tr1 h

/-- The domain-record locator page loop issues only GET requests. -/
lemma getDomainRecordLoop_filter (p : Provider) (domain sub : String) :
    ∀ (fuel page : Nat) (tr : List Req) (res : Option DomainRecord × Bool) (tr1 : List Req),
      getDomainRecordLoop p domain sub page fuel tr = some (res, tr1) →
      tr1.filter isMutating = tr.filter isMutating := by
  intro fuel
  induction fuel with
  | zero => intro page tr res tr1 h; exact Option.noConfusion h
  | succ f ih =>
    intro page tr res tr1 h
    unfold getDomainRecordLoop at h
    split at h
    · cases h; simp [request, List.filter_append, pageGet, recGet]
    · split at h
      · cases h; simp [request, List.filter_append, pageGet, recGet]
      · split at h
        · cases h; simp [request, List.filter_append, pageGet, recGet]
        · split at h
          · have := ih (page + 1) (request p tr (recGet domain page)).2 res tr1 h
            rw [this]; simp [request, List.filter_append, pageGet, recGet]
          · cases h; simp [request, List.filter_append, pageGet, recGet]

@[simp] lemma postActionTy_get (u : String) : postActionTy (Req.get u) = none := rfl

@[simp] lemma postActionTy_delete (u : String) : postActionTy (Req.delete u) = none := rfl

@[simp] lemma postActionTy_doAction (u ty : String) (i : Int) (sz : String) :
    postActionTy (Req.post u (Body.doAction ty i sz)) = some ty := rfl

@[simp] lemma isGet_get (u : String) : (Req.get u).isGet = true := rfl

@[simp] lemma isGet_post (u : String) (b : Body) : (Req.post u b).isGet = false := rfl

@[simp] lemma isGet_delete (u : String) : (Req.delete u).isGet = false := rfl

lemma findSome_skip_gets (k : Nat) (v : String) (rest : List Req) :
    List.findSome? postActionTy (List.replicate k (Req.get v) ++ rest) =
      List.findSome? postActionTy rest := by
  induction k with
  | zero => rfl
  | succ m ih =>
    rw [List.replicate_succ, List.cons_append, List.findSome?_cons]
    simpa using ih

lemma takeWhile_skip_gets (k : Nat) (v : String) (rest : List Req) :
    List.takeWhile Req.isGet (List.replicate k (Req.get v) ++ rest) =
      List.replicate k (Req.get v) ++ List.takeWhile Req.isGet rest := by
  induction k with
  | zero => rfl
  | succ m ih =>
    rw [List.replicate_succ, List.cons_append, List.takeWhile_cons]
    simp [ih, List.replicate_succ]

lemma lastPostAction_shape (pre : List Req) (u ty : String) (i : Int) (sz : String)
    (k : Nat) (v : String) :
    lastPostAction (pre ++ Req.post u (Body.doAction ty i sz) :: List.replicate k (Req.get v)) =
      some ty := by
  unfold lastPostAction
  rw [List.reverse_append, List.reverse_cons, List.reverse_replicate, List.append_assoc,
    findSome_skip_gets]
  simp [List.findSome?_cons]

lemma trailingGets_shape (pre : List Req) (u ty : String) (i : Int) (sz : String)
    (k : Nat) (v : String) :
    trailingGets (pre ++ Req.post u (Body.doAction ty i sz) :: List.replicate k (Req.get v)) =
      k := by
  unfold trailingGets
  rw [List.reverse_append, List.reverse_cons, List.reverse_replicate, List.append_assoc,
    takeWhile_skip_gets]
  simp [List.takeWhile_cons]

@[simp] lemma resizeOracle_post (d : Droplet) (oP lP aP : Nat → Droplet) (hist : List Req)
    (u : String) (b : Body) :
    resizeOracle d oP lP aP hist (Req.post u b) = Resp.ok := rfl

@[simp] lemma resizeOracle_empty_get (d : Droplet) (oP lP aP : Nat → Droplet) (w : String) :
    resizeOracle d oP lP aP [] (Req.get w) = Resp.droplets [d] := rfl

lemma resizeOracle_phase_poll (d : Droplet) (oP lP aP : Nat → Droplet) (pre : List Req)
    (u ty : String) (i : Int) (sz : String) (k : Nat) (v w : String) :
    resizeOracle d oP lP aP
        (pre ++ Req.post u (Body.doAction ty i sz) :: List.replicate k (Req.get v))
        (Req.get w) =
      (if ty = "shutdown" then Resp.droplet (oP k)
       else if ty = "resize" then Resp.droplet (lP k)
       else if ty = "power_on" then Resp.droplet (aP k)
       else Resp.droplet d) := by
  unfold resizeOracle
  rw [if_neg (by simp), lastPostAction_shape, trailingGets_shape]

lemma resizeOracle_poll_shutdown (d : Droplet) (oP lP aP : Nat → Droplet) (pre : List Req)
    (u : String) (i : Int) (sz : String) (k : Nat) (v w : String) :
    resizeOracle d oP lP aP
        (pre ++ Req.post u (Body.doAction "shutdown" i sz) :: List.replicate k (Req.get v))
        (Req.get w) = Resp.droplet (oP k) := by
  rw [resizeOracle_phase_poll, if_pos rfl]

lemma resizeOracle_poll_resize (d : Droplet) (oP lP aP : Nat → Droplet) (pre : List Req)
    (u : String) (i : Int) (sz : String) (k : Nat) (v w : String) :
    resizeOracle d oP lP aP
        (pre ++ Req.post u (Body.doAction "resize" i sz) :: List.replicate k (Req.get v))
        (Req.get w) = Resp.droplet (lP k) := by
  rw [resizeOracle_phase_poll, if_neg (by decide), if_pos rfl]

/-- On the mocked provider the locate step finds the droplet on the first
page with a single request. -/
lemma resizeOracle_locate (d : Droplet) (oP lP aP : Nat → Droplet) (name : String)
    (hname : (toLowerStr d.name) = (toLowerStr name)) :
    getDropletFromName (resizeOracle d oP lP aP) name 1 [] =
      some ((some d, false), [pageGet 1]) := by
  unfold getDropletFromName getDropletFromNameLoop
  simp only [request, pageGet, resizeOracle_empty_get, isErr_droplets, Bool.false_eq_true,
    if_false, decodeDroplets, List.find?_cons, hname, beq_self_eq_true, List.nil_append]

@[simp] lemma request_fst (p : Provider) (tr : List Req) (rq : Req) :
    (request p tr rq).1 = p tr rq := rfl

@[simp] lemma request_snd (p : Provider) (tr : List Req) (rq : Req) :
    (request p tr rq).2 = tr ++ [rq] := rfl

/-- On the mocked provider, when some poll inside the budget reports
status off, shutdownNode succeeds without a forced power_off: the trace
gains the shutdown POST and the polls up to the off one. -/
lemma shutdownNode_happy (d : Droplet) (oP lP aP : Nat → Droplet)
    (hoff : ∃ i, i ≤ 10 ∧ (oP i).status = "off") :
    ∃ m1, 1 ≤ m1 ∧ m1 ≤ 11 ∧
      shutdownNode (resizeOracle d oP lP aP) d [pageGet 1] =
        (false, [pageGet 1, actionReq d.id "shutdown" ""] ++ List.replicate m1 (pollGet d.id)) := by
  obtain ⟨i0, hi0, hst⟩ := hoff
  have hresp : ∀ k, resizeOracle d oP lP aP
      ([pageGet 1, actionReq d.id "shutdown" ""] ++ List.replicate k (pollGet d.id))
      (pollGet d.id) = Resp.droplet (oP k) := by
    intro k
    have h := resizeOracle_poll_shutdown d oP lP aP [pageGet 1] (actionsUrl d.id) 0 "" k
      (dropletUrl d.id) (dropletUrl d.id)
    simpa [actionReq, pollGet] using h
  obtain ⟨m, hm0, hm10, hwait⟩ :=
    waitForNodeStatus_hit (resizeOracle d oP lP aP) d.id "off" oP
      [pageGet 1, actionReq d.id "shutdown" ""] hresp 10 0 ⟨i0, Nat.zero_le _, by omega, hst⟩
  rw [List.replicate_zero, List.append_nil] at hwait
  refine ⟨m + 1, by omega, by omega, ?_⟩
  unfold shutdownNode
  simp only [request_fst, request_snd]
  rw [show resizeOracle d oP lP aP [pageGet 1] (actionReq d.id "shutdown" "") = Resp.ok from rfl]
  simp only [isErr_ok, Bool.false_eq_true, if_false]
  rw [show ([pageGet 1] : List Req) ++ [actionReq d.id "shutdown" ""] =
    [pageGet 1, actionReq d.id "shutdown" ""] from rfl]
  rw [hwait]
  simp

/-- On the mocked provider, when no poll inside the budget reports status
off, shutdownNode escalates: 11 polls then exactly one forced power_off
POST, with no further confirmation poll. -/
lemma shutdownNode_timeout (d : Droplet) (oP lP aP : Nat → Droplet)
    (hnoff : ∀ i, i ≤ 10 → (oP i).status ≠ "off") :
    shutdownNode (resizeOracle d oP lP aP) d [pageGet 1] =
      (false, ([pageGet 1, actionReq d.id "shutdown" ""] ++ List.replicate 11 (pollGet d.id))
        ++ [actionReq d.id "power_off" ""]) := by
  have hresp : ∀ k, resizeOracle d oP lP aP
      ([pageGet 1, actionReq d.id "shutdown" ""] ++ List.replicate k (pollGet d.id))
      (pollGet d.id) = Resp.droplet (oP k) := by
    intro k
    have h := resizeOracle_poll_shutdown d oP lP aP [pageGet 1] (actionsUrl d.id) 0 "" k
      (dropletUrl d.id) (dropletUrl d.id)
    simpa [actionReq, pollGet] using h
  have hwait :=
    waitForNodeStatus_timeout (resizeOracle d oP lP aP) d.id "off" oP
      [pageGet 1, actionReq d.id "shutdown" ""] hresp 10 0
      (fun i h1 h2 => hnoff i (by omega))
  rw [List.replicate_zero, List.append_nil] at hwait
  unfold shutdownNode
  simp only [request_fst, request_snd]
  rw [show resizeOracle d oP lP aP [pageGet 1] (actionReq d.id "shutdown" "") = Resp.ok from rfl]
  simp only [isErr_ok, Bool.false_eq_true, if_false]
  rw [show ([pageGet 1] : List Req) ++ [actionReq d.id "shutdown" ""] =
    [pageGet 1, actionReq d.id "shutdown" ""] from rfl]
  rw [hwait]
  simp only [Bool.false_eq_true, if_false]
  rw [show resizeOracle d oP lP aP
    ([pageGet 1, actionReq d.id "shutdown" ""] ++ List.replicate (0 + 10 + 1) (pollGet d.id))
    (actionReq d.id "power_off" "") = Resp.ok from rfl]
  simp only [isErr_ok]

/-- Full characterization of a resize run on the mocked provider when the
node is found, needs resizing, reaches off within the shutdown budget and
eventually unlocks: the run succeeds and its trace is a happyTrace. -/
lemma resize_run_happy (d : Droplet) (oP lP aP : Nat → Droplet) (name : String) (size : Int)
    (lockFuel : Nat)
    (hname : (toLowerStr d.name) = (toLowerStr name))
    (hsz : ¬ Int.tdiv d.memory 1024 = size)
    (hoff : ∃ i, i ≤ 10 ∧ (oP i).status = "off")
    (hlock : ∃ j, j < lockFuel ∧ (lP j).locked = false) :
    ∃ m1 m2 m3, 1 ≤ m1 ∧ 1 ≤ m2 ∧ 1 ≤ m3 ∧
      ResizeNode (resizeOracle d oP lP aP) name size 1 lockFuel [] =
        some (false, happyTrace d.id size m1 m2 m3) := by
  obtain ⟨m1', hm1a, hm1b, hshut⟩ := shutdownNode_happy d oP lP aP hoff
  obtain ⟨j0, hj0, hlk⟩ := hlock
  have hrespL : ∀ k, resizeOracle d oP lP aP
      (([pageGet 1, actionReq d.id "shutdown" ""] ++ List.replicate m1' (pollGet d.id)
        ++ [actionReq d.id "resize" (sizeSlug size)]) ++ List.replicate k (pollGet d.id))
      (pollGet d.id) = Resp.droplet (lP k) := by
    intro k
    have h := resizeOracle_poll_resize d oP lP aP
      ([pageGet 1, actionReq d.id "shutdown" ""] ++ List.replicate m1' (pollGet d.id))
      (actionsUrl d.id) 0 (sizeSlug size) k (dropletUrl d.id) (dropletUrl d.id)
    simpa [actionReq, pollGet, List.append_assoc] using h
  obtain ⟨m2', hm2a, hm2b, hloop⟩ :=
    resizeLockLoop_clears (resizeOracle d oP lP aP) d lP
      ([pageGet 1, actionReq d.id "shutdown" ""] ++ List.replicate m1' (pollGet d.id)
        ++ [actionReq d.id "resize" (sizeSlug size)]) hrespL lockFuel 0
      ⟨j0, Nat.zero_le _, by omega, hlk⟩
  rw [List.replicate_zero, List.append_nil] at hloop
  obtain ⟨m3', hm3a, hactive⟩ :=
    waitForNodeStatus_only_polls (resizeOracle d oP lP aP) d.id "active" 10
      (([pageGet 1, actionReq d.id "shutdown" ""] ++ List.replicate m1' (pollGet d.id)
        ++ [actionReq d.id "resize" (sizeSlug size)]) ++ List.replicate (m2' + 1) (pollGet d.id)
        ++ [actionReq d.id "power_on" ""])
  refine ⟨m1', m2' + 1, m3', hm1a, by omega, hm3a, ?_⟩
  unfold ResizeNode
  rw [resizeOracle_locate d oP lP aP name hname]
  simp only [Bool.false_eq_true, if_false]
  rw [if_neg hsz, hshut]
  simp only [Bool.false_eq_true, if_false, request_fst, request_snd]
  rw [show resizeOracle d oP lP aP
    ([pageGet 1, actionReq d.id "shutdown" ""] ++ List.replicate m1' (pollGet d.id))
    (actionReq d.id "resize" (sizeSlug size)) = Resp.ok from rfl]
  simp only [isErr_ok, Bool.false_eq_true, if_false]
  rw [show ([pageGet 1, actionReq d.id "shutdown" ""] ++ List.replicate m1' (pollGet d.id))
      ++ [actionReq d.id "resize" (sizeSlug size)] =
    ([pageGet 1, actionReq d.id "shutdown" ""] ++ List.replicate m1' (pollGet d.id)
      ++ [actionReq d.id "resize" (sizeSlug size)]) from by simp [List.append_assoc]]
  simp only [List.append_assoc, List.cons_append, List.nil_append] at hactive
  rw [hloop]
  simp [hactive, happyTrace, List.append_assoc]

/-- Full characterization of a resize run on the mocked provider when the
node is found, needs resizing, never reaches off within the shutdown
budget, and eventually unlocks: the run still succeeds, with exactly one
forced power_off POST issued immediately before the resize POST. -/
lemma resize_run_timeout (d : Droplet) (oP lP aP : Nat → Droplet) (name : String) (size : Int)
    (lockFuel : Nat)
    (hname : (toLowerStr d.name) = (toLowerStr name))
    (hsz : ¬ Int.tdiv d.memory 1024 = size)
    (hnoff : ∀ i, i ≤ 10 → (oP i).status ≠ "off")
    (hlock : ∃ j, j < lockFuel ∧ (lP j).locked = false) :
    ∃ m2 m3, 1 ≤ m2 ∧ 1 ≤ m3 ∧
      ResizeNode (resizeOracle d oP lP aP) name size 1 lockFuel [] =
        some (false, timeoutTrace d.id size m2 m3) := by
  have hshut := shutdownNode_timeout d oP lP aP hnoff
  obtain ⟨j0, hj0, hlk⟩ := hlock
  have hrespL : ∀ k, resizeOracle d oP lP aP
      ((([pageGet 1, actionReq d.id "shutdown" ""] ++ List.replicate 11 (pollGet d.id))
        ++ [actionReq d.id "power_off" ""] ++ [actionReq d.id "resize" (sizeSlug size)])
        ++ List.replicate k (pollGet d.id))
      (pollGet d.id) = Resp.droplet (lP k) := by
    intro k
    have h := resizeOracle_poll_resize d oP lP aP
      (([pageGet 1, actionReq d.id "shutdown" ""] ++ List.replicate 11 (pollGet d.id))
        ++ [actionReq d.id "power_off" ""])
      (actionsUrl d.id) 0 (sizeSlug size) k (dropletUrl d.id) (dropletUrl d.id)
    simpa [actionReq, pollGet, List.append_assoc] using h
  obtain ⟨m2', hm2a, hm2b, hloop⟩ :=
    resizeLockLoop_clears (resizeOracle d oP lP aP) d lP
      (([pageGet 1, actionReq d.id "shutdown" ""] ++ List.replicate 11 (pollGet d.id))
        ++ [actionReq d.id "power_off" ""] ++ [actionReq d.id "resize" (sizeSlug size)])
      hrespL lockFuel 0 ⟨j0, Nat.zero_le _, by omega, hlk⟩
  rw [List.replicate_zero, List.append_nil] at hloop
  obtain ⟨m3', hm3a, hactive⟩ :=
    waitForNodeStatus_only_polls (resizeOracle d oP lP aP) d.id "active" 10
      (((([pageGet 1, actionReq d.id "shutdown" ""] ++ List.replicate 11 (pollGet d.id))
        ++ [actionReq d.id "power_off" ""] ++ [actionReq d.id "resize" (sizeSlug size)])
        ++ List.replicate (m2' + 1) (pollGet d.id)) ++ [actionReq d.id "power_on" ""])
  refine ⟨m2' + 1, m3', by omega, hm3a, ?_⟩
  unfold ResizeNode
  rw [resizeOracle_locate d oP lP aP name hname]
  simp only [Bool.false_eq_true, if_false]
  rw [if_neg hsz, hshut]
  simp only [Bool.false_eq_true, if_false, request_fst, request_snd]
  rw [show resizeOracle d oP lP aP
    (([pageGet 1, actionReq d.id "shutdown" ""] ++ List.replicate 11 (pollGet d.id))
      ++ [actionReq d.id "power_off" ""])
    (actionReq d.id "resize" (sizeSlug size)) = Resp.ok from rfl]
  simp only [isErr_ok, Bool.false_eq_true, if_false]
  rw [hloop]
  simp [List.append_assoc] at hactive
  simp [hactive, timeoutTrace, List.append_assoc]

/-- The mutating requests of a confirmed-shutdown resize run are exactly
shutdown, resize, power_on in that order. -/
lemma happyTrace_filter (id size : Int) (m1 m2 m3 : Nat) :
    (happyTrace id size m1 m2 m3).filter isMutating =
      [actionReq id "shutdown" "", actionReq id "resize" (sizeSlug size),
       actionReq id "power_on" ""] := by
  simp [happyTrace, List.filter_append, filter_isMutating_replicate_get, actionReq, pageGet,
    pollGet]

/-- The mutating requests of a shutdown-timeout resize run are exactly
shutdown, power_off, resize, power_on in that order. -/
lemma timeoutTrace_filter (id size : Int) (m2 m3 : Nat) :
    (timeoutTrace id size m2 m3).filter isMutating =
      [actionReq id "shutdown" "", actionReq id "power_off" "",
       actionReq id "resize" (sizeSlug size), actionReq id "power_on" ""] := by
  simp [timeoutTrace, List.filter_append, filter_isMutating_replicate_get, actionReq, pageGet,
    pollGet]

/-- One locator page that contains a match: the loop stops with the first
match of that page. -/
lemma getDropletFromNameLoop_step_found (p : Provider) (nm : String) (page f : Nat)
    (tr : List Req) (l : List Droplet) (x : Droplet)
    (hresp : p tr (pageGet page) = Resp.droplets l)
    (hfind : l.find? (fun y => (toLowerStr y.name) == nm) = some x) :
    getDropletFromNameLoop p nm page (f + 1) tr =
      some ((some x, false), tr ++ [pageGet page]) := by
  unfold getDropletFromNameLoop
  simp [hresp, decodeDroplets, hfind]

/-- One locator page of full length perPage with no match: the loop moves
on to the next page. -/
lemma getDropletFromNameLoop_step_next (p : Provider) (nm : String) (page f : Nat)
    (tr : List Req) (l : List Droplet)
    (hresp : p tr (pageGet page) = Resp.droplets l)
    (hfind : l.find? (fun y => (toLowerStr y.name) == nm) = none)
    (hlen : l.length = perPage) :
    getDropletFromNameLoop p nm page (f + 1) tr =
      getDropletFromNameLoop p nm (page + 1) f (tr ++ [pageGet page]) := by
  conv_lhs => unfold getDropletFromNameLoop
  simp [hresp, decodeDroplets, hfind, hlen]

/-- One record page that contains a match: the loop stops with the first
match of that page. -/
lemma getDomainRecordLoop_step_found (p : Provider) (domain sub : String) (page f : Nat)
    (tr : List Req) (l : List DomainRecord) (next : String) (x : DomainRecord)
    (hresp : p tr (recGet domain page) = Resp.records l next)
    (hfind : l.find? (fun y => (toLowerStr y.name) == sub) = some x) :
    getDomainRecordLoop p domain sub page (f + 1) tr =
      some ((some x, false), tr ++ [recGet domain page]) := by
  unfold getDomainRecordLoop
  simp [hresp, decodeRecords, hfind]

/-- One record page with no match but a next link: the loop moves on to
the next page. -/
lemma getDomainRecordLoop_step_next (p : Provider) (domain sub : String) (page f : Nat)
    (tr : List Req) (l : List DomainRecord) (next : String)
    (hresp : p tr (recGet domain page) = Resp.records l next)
    (hfind : l.find? (fun y => (toLowerStr y.name) == sub) = none)
    (hnext : 0 < next.length) :
    getDomainRecordLoop p domain sub page (f + 1) tr =
      getDomainRecordLoop p domain sub (page + 1) f (tr ++ [recGet domain page]) := by
  conv_lhs => unfold getDomainRecordLoop
  simp [hresp, decodeRecords, hfind, hnext]

/-- C10: for every poll stream, target status and retry budget
maxTries ≥ 0, if the fetched status never equals the target then
waitForNodeStatus terminates with false after performing exactly
maxTries + 1 status fetches (one request per fetch, starting from an
empty trace). -/
theorem waitForNodeStatus_fetch_count (f : Nat → Droplet) (id : Int) (status : String)
    (maxTries : Nat) (h : ∀ k, (f k).status ≠ status) :
    (waitForNodeStatus (pollProvider f) id status maxTries []).1 = false ∧
    (waitForNodeStatus (pollProvider f) id status maxTries []).2.length = maxTries + 1 := by
  have hresp : ∀ k, pollProvider f (([] : List Req) ++ List.replicate k (pollGet id))
      (pollGet id) = Resp.droplet (f k) := by
    intro k; simp [pollProvider]
  have hrun := waitForNodeStatus_timeout (pollProvider f) id status f [] hresp maxTries 0
    (fun i h1 h2 => h i)
  simp only [List.replicate_zero, List.append_nil, List.nil_append, Nat.zero_add] at hrun
  rw [hrun]
  simp

theorem waitForNodeStatus_fetch_count_witness :
    (waitForNodeStatus (pollProvider (fun _ => zeroDroplet)) 1 "active" 2 []).1 = false ∧
    (waitForNodeStatus (pollProvider (fun _ => zeroDroplet)) 1 "active" 2 []).2.length = 2 + 1 :=
  waitForNodeStatus_fetch_count (fun _ => zeroDroplet) 1 "active" 2
    (fun k => by exact (by decide : zeroDroplet.status ≠ "active"))

/-- C8: both resource locators return the first matching item in page
order and issue one request per page scanned: when page 1 has no match
(and signals more pages) while page 2 contains a match, exactly 2
requests are issued and the first match of page 2 is returned, whatever
duplicates exist later. -/
theorem locator_first_match_two_pages :
    (∀ (p : Provider) (name : String) (l1 l2 : List Droplet) (x : Droplet),
      p [] (pageGet 1) = Resp.droplets l1 →
      p [pageGet 1] (pageGet 2) = Resp.droplets l2 →
      l1.length = perPage →
      l1.find? (fun y => (toLowerStr y.name) == (toLowerStr name)) = none →
      l2.find? (fun y => (toLowerStr y.name) == (toLowerStr name)) = some x →
      getDropletFromName p name 2 [] = some ((some x, false), [pageGet 1, pageGet 2])) ∧
    (∀ (p : Provider) (domain sub : String) (r1 r2 : List DomainRecord) (n1 n2 : String)
        (x : DomainRecord),
      p [] (recGet domain 1) = Resp.records r1 n1 →
      p [recGet domain 1] (recGet domain 2) = Resp.records r2 n2 →
      0 < n1.length →
      r1.find? (fun y => (toLowerStr y.name) == sub) = none →
      r2.find? (fun y => (toLowerStr y.name) == sub) = some x →
      getDomainRecordLoop p domain sub 1 2 [] =
        some ((some x, false), [recGet domain 1, recGet domain 2])) := by
  constructor
  · intro p name l1 l2 x h1 h2 hlen hf1 hf2
    unfold getDropletFromName
    rw [show (2 : Nat) = 1 + 1 from rfl,
      getDropletFromNameLoop_step_next p (toLowerStr name) 1 1 [] l1 h1 hf1 hlen]
    simp only [List.nil_append, Nat.reduceAdd]
    rw [getDropletFromNameLoop_step_found p (toLowerStr name) 2 0 [pageGet 1] l2 x h2 hf2]
    rfl
  · intro p domain sub r1 r2 n1 n2 x h1 h2 hnext hf1 hf2
    rw [show (2 : Nat) = 1 + 1 from rfl,
      getDomainRecordLoop_step_next p domain sub 1 1 [] r1 n1 h1 hf1 hnext]
    simp only [List.nil_append, Nat.reduceAdd]
    rw [getDomainRecordLoop_step_found p domain sub 2 0 [recGet domain 1] r2 n2 x h2 hf2]
    rfl

theorem locator_first_match_two_pages_witness :
    getDropletFromName c8DropOracle "dup" 2 [] =
      some ((some cDup1, false), [pageGet 1, pageGet 2]) ∧
    getDomainRecordLoop c8RecOracle "example.com" "dup" 1 2 [] =
      some ((some cRecDup1, false), [recGet "example.com" 1, recGet "example.com" 2]) := by
  constructor
  · exact locator_first_match_two_pages.1 c8DropOracle "dup" (List.replicate 10 cFiller)
      [cDup1, cDup2] cDup1 rfl rfl (by decide) (by decide) (by decide)
  · exact locator_first_match_two_pages.2 c8RecOracle "example.com" "dup"
      [cRecFiller] [cRecDup1, cRecDup2] "next-url" "" cRecDup1 rfl rfl
      (by decide) (by decide) (by decide)

/-- C6: when the locate step finds nothing (and reports no error), both
DeleteNode and DeleteDomainRecord return success and leave the mutating
part of the trace unchanged: absence is a no-op, not an error. -/
theorem delete_absent_noop :
    (∀ (p : Provider) (name : String) (fuel : Nat) (tr tr1 : List Req),
      getDropletFromName p name fuel tr = some ((none, false), tr1) →
      DeleteNode p name fuel tr = some (false, tr1) ∧
        tr1.filter isMutating = tr.filter isMutating) ∧
    (∀ (p : Provider) (domain sub : String) (fuel : Nat) (tr tr1 : List Req),
      getDomainRecordLoop p (toLowerStr domain) (toLowerStr sub) 1 fuel tr = some ((none, false), tr1) →
      DeleteDomainRecord p domain sub fuel tr = some (false, tr1) ∧
        tr1.filter isMutating = tr.filter isMutating) := by
  constructor
  · intro p name fuel tr tr1 h
    refine ⟨?_, getDropletFromName_filter p name fuel tr _ tr1 h⟩
    unfold DeleteNode
    rw [h]
    simp
  · intro p domain sub fuel tr tr1 h
    refine ⟨?_, getDomainRecordLoop_filter p (toLowerStr domain) (toLowerStr sub) fuel 1 tr _ tr1 h⟩
    unfold DeleteDomainRecord
    rw [h]
    simp

theorem delete_absent_noop_witness :
    (DeleteNode noDropletsOracle "ghost" 1 [] = some (false, [pageGet 1]) ∧
      ([pageGet 1] : List Req).filter isMutating = ([] : List Req).filter isMutating) ∧
    (DeleteDomainRecord noRecordsOracle "Example.com" "www" 1 [] =
        some (false, [recGet "example.com" 1]) ∧
      ([recGet "example.com" 1] : List Req).filter isMutating =
        ([] : List Req).filter isMutating) := by
  constructor
  · exact delete_absent_noop.1 noDropletsOracle "ghost" 1 [] [pageGet 1] (by decide)
  · exact delete_absent_noop.2 noRecordsOracle "Example.com" "www" 1 []
      [recGet "example.com" 1] (by decide)

/-- C3 counterexample: an existing record whose type matches but whose
value differs from the desired one makes AssignDomainRecord return
success (no error at all), not the not-implemented error the claim
requires. -/
theorem assignDomainRecord_value_drift_counterexample :
    cRec.ty = "A" ∧ cRec.data ≠ "5.6.7.8" ∧
    (AssignDomainRecord cRecOracle "example.com" "A" "www" "5.6.7.8" 1 []).map Prod.fst =
      some none := by
  exact ⟨rfl, by decide, by decide⟩

/-- C3 (amended): when the locate step finds a record whose type equals
the desired type, AssignDomainRecord returns success without issuing any
mutating request, for every desired value ip: the record value is never
compared, so value drift is silently ignored rather than reported. -/
theorem assignDomainRecord_type_match_noop (p : Provider) (domain ty sub ip : String)
    (fuel : Nat) (tr tr1 : List Req) (r : DomainRecord)
    (hloc : getDomainRecordLoop p (toLowerStr domain) (toLowerStr sub) 1 fuel tr =
      some ((some r, false), tr1))
    (hty : ty = r.ty) :
    AssignDomainRecord p domain ty sub ip fuel tr = some (none, tr1) ∧
      tr1.filter isMutating = tr.filter isMutating := by
  refine ⟨?_, getDomainRecordLoop_filter p (toLowerStr domain) (toLowerStr sub) fuel 1 tr _ tr1 hloc⟩
  unfold AssignDomainRecord
  rw [hloc]
  simp [hty]

theorem assignDomainRecord_type_match_noop_witness :
    AssignDomainRecord cRecOracle "example.com" "A" "www" "5.6.7.8" 1 [] =
      some (none, [recGet "example.com" 1]) ∧
    ([recGet "example.com" 1] : List Req).filter isMutating =
      ([] : List Req).filter isMutating :=
  assignDomainRecord_type_match_noop cRecOracle "example.com" "A" "www" "5.6.7.8" 1 []
    [recGet "example.com" 1] cRec (by decide) rfl

/-- C7: when the locate step finds a record whose type differs from the
desired type, AssignDomainRecord returns the not-implemented error and
issues no mutating request. -/
theorem assignDomainRecord_type_mismatch_error (p : Provider) (domain ty sub ip : String)
    (fuel : Nat) (tr tr1 : List Req) (r : DomainRecord)
    (hloc : getDomainRecordLoop p (toLowerStr domain) (toLowerStr sub) 1 fuel tr =
      some ((some r, false), tr1))
    (hty : ty ≠ r.ty) :
    AssignDomainRecord p domain ty sub ip fuel tr =
      some (some DoErr.notImplemented, tr1) ∧
      tr1.filter isMutating = tr.filter isMutating := by
  refine ⟨?_, getDomainRecordLoop_filter p (toLowerStr domain) (toLowerStr sub) fuel 1 tr _ tr1 hloc⟩
  unfold AssignDomainRecord
  rw [hloc]
  simp [hty]

theorem assignDomainRecord_type_mismatch_error_witness :
    AssignDomainRecord cRecOracle "example.com" "AAAA" "www" "5.6.7.8" 1 [] =
      some (some DoErr.notImplemented, [recGet "example.com" 1]) ∧
    ([recGet "example.com" 1] : List Req).filter isMutating =
      ([] : List Req).filter isMutating :=
  assignDomainRecord_type_mismatch_error cRecOracle "example.com" "AAAA" "www" "5.6.7.8" 1 []
    [recGet "example.com" 1] cRec (by decide) (by decide)

/-- C9: a provider on which the create POST succeeds but the post-create
re-fetch still finds no droplet makes CreateNode return success while the
fileOutput snapshot stays zero-valued: no node id and no network address
can be observed despite the reported success. -/
theorem createNode_silent_empty_output :
    (CreateNode c9Oracle "node-c" "nyc3" "2gb" "ubuntu-16-04-x64" "" 1 1
        { droplet := zeroDroplet } []).map Prod.fst = some (false, { droplet := zeroDroplet }) ∧
    zeroDroplet.id = 0 ∧ zeroDroplet.networks = [] := by
  exact ⟨by decide, rfl, rfl⟩

/-- C4 counterexample: with the target capacity equal to the current one,
ResizeNode still issues one request (the locate page GET), refuting the
zero-requests claim, even though it does return success and skips the
state machine. -/
theorem resizeNode_equal_size_counterexample :
    Int.tdiv cDrop2gb.memory 1024 = 2 ∧
    ResizeNode c4Oracle "node-b" 2 1 1 [] = some (false, [pageGet 1]) ∧
    ([pageGet 1] : List Req).length ≠ 0 := by
  exact ⟨by decide, by decide, by decide⟩

/-- C4 (amended): when the locate step finds the droplet and its capacity
(Memory / 1024) already equals the target, ResizeNode returns success
immediately, issuing no mutating request beyond the read-only locate
GETs and never entering the resize state machine. -/
theorem resizeNode_equal_size_no_mutation (p : Provider) (name : String) (size : Int)
    (locFuel lockFuel : Nat) (tr tr1 : List Req) (d : Droplet)
    (hloc : getDropletFromName p name locFuel tr = some ((some d, false), tr1))
    (hsz : Int.tdiv d.memory 1024 = size) :
    ResizeNode p name size locFuel lockFuel tr = some (false, tr1) ∧
      tr1.filter isMutating = tr.filter isMutating := by
  refine ⟨?_, getDropletFromName_filter p name locFuel tr _ tr1 hloc⟩
  unfold ResizeNode
  rw [hloc]
  simp [hsz]

theorem resizeNode_equal_size_no_mutation_witness :
    ResizeNode c4Oracle "node-b" 2 1 1 [] = some (false, [pageGet 1]) ∧
    ([pageGet 1] : List Req).filter isMutating = ([] : List Req).filter isMutating :=
  resizeNode_equal_size_no_mutation c4Oracle "node-b" 2 1 1 [] [pageGet 1] cDrop2gb
    (by decide) (by decide)

/-- C1: on a mocked provider where the droplet is found, needs resizing,
some off-poll within the shutdown budget of 10 reports status off, and
some lock-poll within the loop fuel reports the locked flag cleared, the
resize run succeeds and its mutating requests are exactly the action
POSTs shutdown, resize, power_on in that order; no forced power_off
request ever appears in the trace. -/
theorem resizeNode_happy_actions (d : Droplet) (oP lP aP : Nat → Droplet) (name : String)
    (size : Int) (lockFuel : Nat)
    (hname : toLowerStr d.name = toLowerStr name)
    (hsz : ¬ Int.tdiv d.memory 1024 = size)
    (hoff : ∃ i, i ≤ 10 ∧ (oP i).status = "off")
    (hlock : ∃ j, j < lockFuel ∧ (lP j).locked = false) :
    ∃ tr, ResizeNode (resizeOracle d oP lP aP) name size 1 lockFuel [] = some (false, tr) ∧
      tr.filter isMutating = [actionReq d.id "shutdown" "",
        actionReq d.id "resize" (sizeSlug size), actionReq d.id "power_on" ""] ∧
      actionReq d.id "power_off" "" ∉ tr := by
  obtain ⟨m1, m2, m3, _, _, _, hrun⟩ :=
    resize_run_happy d oP lP aP name size lockFuel hname hsz hoff hlock
  refine ⟨happyTrace d.id size m1 m2 m3, hrun, happyTrace_filter d.id size m1 m2 m3, ?_⟩
  intro hmem
  have h4 : actionReq d.id "power_off" "" ∈ (happyTrace d.id size m1 m2 m3).filter isMutating :=
    List.mem_filter.mpr ⟨hmem, rfl⟩
  rw [happyTrace_filter] at h4
  simp [actionReq] at h4

theorem resizeNode_happy_actions_witness :
    ∃ tr, ResizeNode (resizeOracle cDropC1 (fun _ => cOffD) (fun _ => cUnlockedD)
        (fun _ => cActiveD)) "node-a" 2 1 1 [] = some (false, tr) ∧
      tr.filter isMutating = [actionReq cDropC1.id "shutdown" "",
        actionReq cDropC1.id "resize" (sizeSlug 2), actionReq cDropC1.id "power_on" ""] ∧
      actionReq cDropC1.id "power_off" "" ∉ tr :=
  resizeNode_happy_actions cDropC1 (fun _ => cOffD) (fun _ => cUnlockedD) (fun _ => cActiveD)
    "node-a" 2 1 rfl (by decide) ⟨0, by omega, rfl⟩ ⟨0, by omega, rfl⟩

/-- C2 counterexample: a resize run on which every post-power_on poll
reports status new, never active, still makes ResizeNode return success:
the result of the final active wait is discarded, so no TimeoutError
reaches the caller, refuting the claim. -/
theorem resizeNode_active_timeout_counterexample :
    cNewD.status ≠ "active" ∧
    (ResizeNode (resizeOracle cDropC1 (fun _ => cOffD) (fun _ => cUnlockedD) (fun _ => cNewD))
        "node-a" 2 1 1 []).map Prod.fst = some false := by
  exact ⟨by decide, by decide⟩

/-- C2 (amended): even when the status never reaches active within the
bounded retry budget after power_on, ResizeNode still returns success to
its caller; the final wait result is dropped and no error is
propagated. -/
theorem resizeNode_active_timeout_success (d : Droplet) (oP lP aP : Nat → Droplet)
    (name : String) (size : Int) (lockFuel : Nat)
    (hname : toLowerStr d.name = toLowerStr name)
    (hsz : ¬ Int.tdiv d.memory 1024 = size)
    (hoff : ∃ i, i ≤ 10 ∧ (oP i).status = "off")
    (hlock : ∃ j, j < lockFuel ∧ (lP j).locked = false)
    (hactive : ∀ i, (aP i).status ≠ "active") :
    ∃ tr, ResizeNode (resizeOracle d oP lP aP) name size 1 lockFuel [] =
      some (false, tr) := by
  obtain ⟨m1, m2, m3, _, _, _, hrun⟩ :=
    resize_run_happy d oP lP aP name size lockFuel hname hsz hoff hlock
  exact ⟨happyTrace d.id size m1 m2 m3, hrun⟩

theorem resizeNode_active_timeout_success_witness :
    ∃ tr, ResizeNode (resizeOracle cDropC1 (fun _ => cOffD) (fun _ => cUnlockedD)
        (fun _ => cNewD)) "node-a" 2 1 1 [] = some (false, tr) :=
  resizeNode_active_timeout_success cDropC1 (fun _ => cOffD) (fun _ => cUnlockedD)
    (fun _ => cNewD) "node-a" 2 1 rfl (by decide) ⟨0, by omega, rfl⟩ ⟨0, by omega, rfl⟩
    (fun i => by exact (by decide : cNewD.status ≠ "active"))

/-- C5: on a mocked provider where no off-poll within the shutdown budget
reports status off, the resize run issues exactly one forced power_off
POST, placed immediately before the resize POST with no confirmation poll
in between (see timeoutTrace), and the mutating requests are exactly
shutdown, power_off, resize, power_on. -/
theorem resizeNode_forced_power_off (d : Droplet) (oP lP aP : Nat → Droplet) (name : String)
    (size : Int) (lockFuel : Nat)
    (hname : toLowerStr d.name = toLowerStr name)
    (hsz : ¬ Int.tdiv d.memory 1024 = size)
    (hnoff : ∀ i, i ≤ 10 → (oP i).status ≠ "off")
    (hlock : ∃ j, j < lockFuel ∧ (lP j).locked = false) :
    ∃ m2 m3, ResizeNode (resizeOracle d oP lP aP) name size 1 lockFuel [] =
        some (false, timeoutTrace d.id size m2 m3) ∧
      (timeoutTrace d.id size m2 m3).filter isMutating =
        [actionReq d.id "shutdown" "", actionReq d.id "power_off" "",
         actionReq d.id "resize" (sizeSlug size), actionReq d.id "power_on" ""] := by
  obtain ⟨m2, m3, _, _, hrun⟩ :=
    resize_run_timeout d oP lP aP name size lockFuel hname hsz hnoff hlock
  exact ⟨m2, m3, hrun, timeoutTrace_filter d.id size m2 m3⟩

theorem resizeNode_forced_power_off_witness :
    ∃ m2 m3, ResizeNode (resizeOracle cDropC1 (fun _ => cNewD) (fun _ => cUnlockedD)
        (fun _ => cActiveD)) "node-a" 2 1 1 [] =
        some (false, timeoutTrace cDropC1.id 2 m2 m3) ∧
      (timeoutTrace cDropC1.id 2 m2 m3).filter isMutating =
        [actionReq cDropC1.id "shutdown" "", actionReq cDropC1.id "power_off" "",
         actionReq cDropC1.id "resize" (sizeSlug 2), actionReq cDropC1.id "power_on" ""] :=
  resizeNode_forced_power_off cDropC1 (fun _ => cNewD) (fun _ => cUnlockedD)
    (fun _ => cActiveD) "node-a" 2 1 rfl (by decide)
    (fun i h => by exact (by decide : cNewD.status ≠ "off")) ⟨0, by omega, rfl⟩
